import Mathlib

/-!
Shallow embedding of the `esr_riders` quote service (Go, `main.go` of the
rider-quotation microservice) together with proofs about its driver
selection, route analysis, surge multiplier and orchestration logic.

Modelling conventions:
* Go `float64` quantities (rates, distances, multipliers, costs) are
  modelled as `ℚ`; all concrete values appearing in the program and in the
  worked examples are exactly representable.
* Go `int` values (`numDrivers`, the wall-clock hour) are modelled as `ℤ`;
  the hour delivered by `time.Now().Clock()` is passed as a parameter,
  making the time dependence explicit.
* The outcome of an outbound HTTP call followed by a JSON decode is
  modelled as an `Except String α` parameter: `.ok` carries the decoded
  value, `.error` carries the Go error message.  `json.Marshal` of the
  response struct (plain rational fields) cannot fail and is modelled as
  always succeeding.
* The decoded driver roster (a Go `map[string]Driver`) is modelled as the
  list of its values in iteration order; `len` of the map is the length of
  that list.
-/

namespace Esr

/-- One driver entry of the roster: `Driver` struct (Name, Rate). -/
structure Driver where
  name : String
  rate : ℚ
deriving DecidableEq, Repr

/-- Journey struct (Start, End); `End` is a Lean keyword so the field is
called `endLoc`. -/
structure Journey where
  start : String
  endLoc : String
deriving DecidableEq, Repr

/-- One step of a route leg of the decoded Directions payload:
distance value and html instruction text. -/
structure Step where
  distance : ℚ
  html_instructions : String
deriving DecidableEq, Repr

/-- One leg of a route: the leg-level distance value and the step list. -/
structure Leg where
  distance : ℚ
  steps : List Step
deriving DecidableEq, Repr

/-- One route of the decoded Directions payload. -/
structure Route where
  legs : List Leg
deriving DecidableEq, Repr

/-- The decoded Google Directions payload. -/
structure Directions where
  routes : List Route
deriving DecidableEq, Repr

/-- Result triple of `CalculateCost` (cost, multiplier*rate, error),
mirroring the Go return `(float64, float64, error)`. -/
structure CostResult where
  cost : ℚ
  finalRate : ℚ
  err : Option String
deriving DecidableEq, Repr

/-- Result triple of `FindBestDriver`, mirroring `(Driver, int, error)`. -/
structure DriverResult where
  driver : Driver
  numDrivers : ℤ
  err : Option String
deriving DecidableEq, Repr

/-- The matcher of the constant regular expression `A(\d)+` used on
`step.Html_instructions`: true iff the character list contains, anywhere,
the letter `A` immediately followed by a decimal digit (the `+` needs one
digit only, so one suffices). -/
def isARoadChars : List Char → Bool
  | a :: b :: rest => (a == 'A' && b.isDigit) || isARoadChars (b :: rest)
  | _ => false

/-- `regexp.Match("A(\d)+", instructions)` on a string. -/
def isARoad (s : String) : Bool :=
  isARoadChars s.data

/-- The `aRoadTotal` accumulation loop of `CalculateCost` (lines 220-227):
starting from `0.0`, each step whose instruction matches the pattern adds
its distance.  The regex is a fixed valid pattern so `regexp.Match` never
returns an error and the error branch of the loop is unreachable. -/
def aRoadSum (steps : List Step) : ℚ :=
  steps.foldl (fun acc s => if isARoad s.html_instructions then acc + s.distance else acc) 0

/-- Criterion 1 of the multiplier block (line 228):
`aRoadTotal > Legs[0].Distance.Value / 2`. -/
def roadCond (aRoadTotal legDistance : ℚ) : Bool :=
  decide (aRoadTotal > legDistance / 2)

/-- Criterion 2 (line 232): `numDrivers < 5`. -/
def scarcityCond (numDrivers : ℤ) : Bool :=
  decide (numDrivers < 5)

/-- Criterion 3 (line 236): `hour > 22 || hour < 6`. -/
def offpeakCond (hour : ℤ) : Bool :=
  decide (hour > 22) || decide (hour < 6)

/-- The multiplier computation of `CalculateCost` (lines 218-238):
`multiplier := 1.0` followed by the three independent `multiplier *= 2`
doubling rules, factored over the three boolean criteria. -/
def surgeMultiplier (road scarcity offpeak : Bool) : ℚ :=
  let m : ℚ := 1
  let m := if road then m * 2 else m
  let m := if scarcity then m * 2 else m
  let m := if offpeak then m * 2 else m
  m

/-- `CalculateCost` (lines 192-243).  The HTTP fetch and JSON decode of the
directions microservice response is the `fetch` parameter; every failure of
that phase returns `(0, 0, err)` exactly as the Go code does.  After a
successful decode: if there is no route or the first route has no legs the
function returns `(0, 0, "Error: No Route Found")`; otherwise it computes
the multiplier from the first route's first leg and returns
`(distance/1000 * rate * multiplier, multiplier * rate, nil)`. -/
def CalculateCost (fetch : Except String Directions) (driver : Driver)
    (numDrivers : ℤ) (hour : ℤ) : CostResult :=
  match fetch with
  | .error e => ⟨0, 0, some e⟩
  | .ok directions =>
    match directions.routes with
    | [] => ⟨0, 0, some "Error: No Route Found"⟩
    | route0 :: _ =>
      match route0.legs with
      | [] => ⟨0, 0, some "Error: No Route Found"⟩
      | leg0 :: _ =>
        let aRoadTotal := aRoadSum leg0.steps
        let multiplier := surgeMultiplier (roadCond aRoadTotal leg0.distance)
          (scarcityCond numDrivers) (offpeakCond hour)
        let cost := leg0.distance / 1000 * driver.rate * multiplier
        ⟨cost, multiplier * driver.rate, none⟩

/-- The comparison `curDriver.Rate < lowest` where `lowest` starts as
`math.Inf(1)` (modelled `none`) and is a real rate afterwards: every
rational rate is strictly below positive infinity. -/
def ltLowest (rate : ℚ) : Option ℚ → Bool
  | none => true
  | some lowest => decide (rate < lowest)

/-- The selection loop of `FindBestDriver` (lines 170-176): iterate over
the roster, keeping the first driver seen whose rate is strictly below the
current lowest.  `best` starts as the zero-value `Driver` struct. -/
def bestDriverLoop : List Driver → Driver → Option ℚ → Driver
  | [], best, _ => best
  | cur :: rest, best, lowest =>
    if ltLowest cur.rate lowest then bestDriverLoop rest cur (some cur.rate)
    else bestDriverLoop rest best lowest

/-- `FindBestDriver` (lines 160-187).  The HTTP fetch and decode of the
roster is the `fetch` parameter; on failure the Go code returns the
zero-value driver, `1` and the error.  On success it returns the loop
result, the size of the decoded map and a nil error. -/
def FindBestDriver (fetch : Except String (List Driver)) : DriverResult :=
  match fetch with
  | .error e => ⟨⟨"", 0⟩, 1, some e⟩
  | .ok roster => ⟨bestDriverLoop roster ⟨"", 0⟩ none, (roster.length : ℤ), none⟩

/-- The four observable outcomes of the `RiderRequest` handler:
HTTP 400 (journey decode failed), HTTP 500 (a downstream call failed),
the plain "No drivers available at this time." body, and the JSON quote
response carrying `FinalRate` and `Cost`. -/
inductive RiderOutcome where
  | badRequest
  | internalError
  | noDrivers
  | quote (finalRate cost : ℚ)
deriving DecidableEq, Repr

/-- `RiderRequest` (lines 104-155).  `journeyDec` is the result of decoding
the request body; `driverRes` the result of `FindBestDriver`; `costFn` the
`CalculateCost` call (a parameter, so that an outcome that holds for every
`costFn` is one reached without invoking `CalculateCost`).  Mirrors the Go
control flow: decode error → 400; driver error → 500; empty driver name →
the no-drivers message; cost error → 500; otherwise the quote response. -/
def RiderRequest (journeyDec : Option Journey) (driverRes : DriverResult)
    (costFn : Journey → Driver → ℤ → CostResult) : RiderOutcome :=
  match journeyDec with
  | none => .badRequest
  | some j =>
    match driverRes.err with
    | some _ => .internalError
    | none =>
      if driverRes.driver.name ≠ "" then
        let c := costFn j driverRes.driver driverRes.numDrivers
        match c.err with
        | some _ => .internalError
        | none => .quote c.finalRate c.cost
      else .noDrivers

/-- Refinement counterpart of `isARoadChars`, following the specification's
words only: "a letter code followed by one or more digits" — any alphabetic
character immediately followed by a digit, anywhere in the text. -/
def specLetterCodeChars : List Char → Bool
  | a :: b :: rest => (a.isAlpha && b.isDigit) || specLetterCodeChars (b :: rest)
  | _ => false

/-- Refinement counterpart of `isARoad`, from the specification's words. -/
def specLetterCode (s : String) : Bool :=
  specLetterCodeChars s.data

/-- The three-driver roster of the specification's end-to-end example,
rates 10, 7 and 12. -/
def exampleRoster : List Driver :=
  [⟨"Henry", 10⟩, ⟨"Grace", 7⟩, ⟨"Ivy", 12⟩]

/-- The directions payload of the end-to-end example: one route, one leg,
leg distance 10000 m, a 6000 m major-road step and a 4000 m ordinary step. -/
def exampleDirections : Directions :=
  ⟨[⟨[⟨10000, [⟨6000, "Continue on A1"⟩, ⟨4000, "Turn left onto Baker Street"⟩]⟩]⟩]⟩

/-- Loop invariant of the selection loop: once `lowest` carries the rate of
the current best driver, the final result's rate is bounded by that rate
and by every rate still to be scanned. -/
theorem bestDriverLoop_le (l : List Driver) :
    ∀ cur : Driver,
      (bestDriverLoop l cur (some cur.rate)).rate ≤ cur.rate ∧
      ∀ d ∈ l, (bestDriverLoop l cur (some cur.rate)).rate ≤ d.rate := by
  induction l with
  | nil => intro cur; exact ⟨le_refl _, by simp⟩
  | cons a t ih =>
    intro cur
    by_cases h : a.rate < cur.rate
    · have hcond : ltLowest a.rate (some cur.rate) = true := by
        simp [ltLowest, h]
      simp only [bestDriverLoop, hcond, if_true]
      obtain ⟨h1, h2⟩ := ih a
      refine ⟨h1.trans h.le, ?_⟩
      intro d hd
      rcases List.mem_cons.mp hd with rfl | hd
      · exact h1
      · exact h2 d hd
    · have hcond : ltLowest a.rate (some cur.rate) = false := by
        simp [ltLowest, h]
      simp only [bestDriverLoop, hcond, Bool.false_eq_true, if_false]
      obtain ⟨h1, h2⟩ := ih cur
      refine ⟨h1, ?_⟩
      intro d hd
      rcases List.mem_cons.mp hd with rfl | hd
      · exact h1.trans (not_lt.mp h)
      · exact h2 d hd

/-- On a successfully decoded roster, the selected driver's rate is a lower
bound of every rate in the roster. -/
theorem findBestDriver_min (roster : List Driver) :
    ∀ d ∈ roster, (FindBestDriver (.ok roster)).driver.rate ≤ d.rate := by
  cases roster with
  | nil => simp
  | cons a t =>
    intro d hd
    have hstep : FindBestDriver (.ok (a :: t)) =
        ⟨bestDriverLoop t a (some a.rate), ((a :: t).length : ℤ), none⟩ := by
      simp [FindBestDriver, bestDriverLoop, ltLowest]
    rw [hstep]
    rcases List.mem_cons.mp hd with rfl | hd
    · exact (bestDriverLoop_le t _).1
    · exact (bestDriverLoop_le t a).2 d hd

/-- The accumulation loop sums exactly the distances of the steps whose
instruction text matches the road pattern. -/
theorem aRoadSum_eq_filter (steps : List Step) :
    aRoadSum steps =
      ((steps.filter fun s => isARoad s.html_instructions).map Step.distance).sum := by
  have key : ∀ (l : List Step) (a : ℚ),
      l.foldl (fun acc s => if isARoad s.html_instructions then acc + s.distance else acc) a
        = a + ((l.filter fun s => isARoad s.html_instructions).map Step.distance).sum := by
    intro l
    induction l with
    | nil => intro a; simp
    | cons s t ih =>
      intro a
      cases h : isARoad s.html_instructions with
      | true =>
        simp only [List.foldl_cons, h, if_true, ih, List.filter_cons, List.map_cons,
          List.sum_cons]
        ring
      | false =>
        simp only [List.foldl_cons, h, Bool.false_eq_true, if_false, ih, List.filter_cons,
          List.map_cons]
  simpa [aRoadSum] using key steps 0

/-- The matcher of `A(\d)+` accepts exactly the character lists containing,
at some position, the letter `A` immediately followed by a digit. -/
theorem isARoadChars_iff (l : List Char) :
    isARoadChars l = true ↔
      ∃ i, l[i]? = some 'A' ∧ ∃ c, l[i + 1]? = some c ∧ c.isDigit = true := by
  induction l with
  | nil => simp [isARoadChars]
  | cons a t ih =>
    cases t with
    | nil =>
      simp only [isARoadChars]
      constructor
      · intro h; exact absurd h (by simp)
      · rintro ⟨i, h1, c, h2, h3⟩
        rw [List.getElem?_cons_succ, List.getElem?_nil] at h2
        exact absurd h2 (by simp)
    | cons b t2 =>
      rw [show isARoadChars (a :: b :: t2) =
        ((a == 'A' && b.isDigit) || isARoadChars (b :: t2)) from rfl]
      rw [Bool.or_eq_true, Bool.and_eq_true, beq_iff_eq]
      constructor
      · rintro (⟨ha, hb⟩ | h)
        · exact ⟨0, by simp [ha], b, by simp, hb⟩
        · obtain ⟨i, h1, c, h2, h3⟩ := ih.mp h
          exact ⟨i + 1, by simpa using h1, c, by simpa using h2, h3⟩
      · rintro ⟨i, h1, c, h2, h3⟩
        cases i with
        | zero =>
          left
          rw [List.getElem?_cons_zero] at h1
          rw [List.getElem?_cons_succ, List.getElem?_cons_zero] at h2
          exact ⟨by injection h1, by injection h2 with h; rw [h]; exact h3⟩
        | succ n =>
          right
          refine ih.mpr ⟨n, ?_, c, ?_, h3⟩
          · rw [List.getElem?_cons_succ] at h1; exact h1
          · rw [List.getElem?_cons_succ] at h2; exact h2

/-- If the driver lookup succeeded and the selected name is empty, the
handler answers with the no-drivers message. -/
theorem riderRequest_noDrivers (j : Journey) (dres : DriverResult)
    (costFn : Journey → Driver → ℤ → CostResult)
    (he : dres.err = none) (hn : dres.driver.name = "") :
    RiderRequest (some j) dres costFn = .noDrivers := by
  obtain ⟨d, n, e⟩ := dres
  simp only at he hn
  subst he
  simp [RiderRequest, hn]

/-- If the selected name is non-empty, the handler never answers with the
no-drivers message, whatever the cost computation does. -/
theorem riderRequest_ne_noDrivers (j : Journey) (dres : DriverResult)
    (costFn : Journey → Driver → ℤ → CostResult)
    (hn : dres.driver.name ≠ "") :
    RiderRequest (some j) dres costFn ≠ .noDrivers := by
  obtain ⟨d, n, e⟩ := dres
  simp only at hn
  cases e with
  | some msg => simp [RiderRequest]
  | none =>
    simp only [RiderRequest]
    rw [if_pos hn]
    cases h : (costFn j d n).err with
    | some msg => simp [h]
    | none => simp [h]

/-- Claim C1: for every successfully decoded roster, `FindBestDriver`
returns a candidate whose rate is a lower bound of every rate in the
roster, together with the roster size as the available count and a nil
error; for an empty roster it returns the zero-value driver with count 0
and no error, and the handler surfaces that as the no-drivers message. -/
theorem c1_find_best_driver :
    (∀ roster : List Driver,
        (FindBestDriver (.ok roster)).numDrivers = (roster.length : ℤ)
        ∧ (FindBestDriver (.ok roster)).err = none
        ∧ ∀ d ∈ roster, (FindBestDriver (.ok roster)).driver.rate ≤ d.rate)
    ∧ FindBestDriver (.ok ([] : List Driver)) = ⟨⟨"", 0⟩, 0, none⟩
    ∧ ∀ (j : Journey) (costFn : Journey → Driver → ℤ → CostResult),
        RiderRequest (some j) (FindBestDriver (.ok ([] : List Driver))) costFn =
          RiderOutcome.noDrivers := by
  refine ⟨fun roster => ⟨rfl, rfl, findBestDriver_min roster⟩, rfl, fun j costFn => ?_⟩
  exact riderRequest_noDrivers j _ costFn rfl rfl

/-- Witness for C1 on a concrete two-driver roster. -/
theorem c1_witness :
    (⟨"Bob", 3⟩ : Driver) ∈ ([⟨"Alice", 5⟩, ⟨"Bob", 3⟩] : List Driver)
    ∧ (FindBestDriver (.ok [⟨"Alice", 5⟩, ⟨"Bob", 3⟩])).driver.rate ≤
        (⟨"Bob", 3⟩ : Driver).rate :=
  ⟨by decide, (c1_find_best_driver.1 [⟨"Alice", 5⟩, ⟨"Bob", 3⟩]).2.2 ⟨"Bob", 3⟩ (by decide)⟩

/-- Claim C2: whenever the decoded directions have a first route with a
first leg, the error is nil, the final rate is the multiplier times the
driver's base rate, and the cost is (leg distance / 1000) times the final
rate; on the worked example (best rate 7, 3 drivers, 10000 m leg, 6000 m
major-road, hour 14) the result is rate 28 and cost 280. -/
theorem c2_cost_formula :
    (∀ (leg : Leg) (ls : List Leg) (rs : List Route) (driver : Driver) (n hour : ℤ),
        (CalculateCost (.ok ⟨⟨leg :: ls⟩ :: rs⟩) driver n hour).err = none
        ∧ (CalculateCost (.ok ⟨⟨leg :: ls⟩ :: rs⟩) driver n hour).finalRate =
            surgeMultiplier (roadCond (aRoadSum leg.steps) leg.distance)
              (scarcityCond n) (offpeakCond hour) * driver.rate
        ∧ (CalculateCost (.ok ⟨⟨leg :: ls⟩ :: rs⟩) driver n hour).cost =
            leg.distance / 1000 *
              (CalculateCost (.ok ⟨⟨leg :: ls⟩ :: rs⟩) driver n hour).finalRate)
    ∧ FindBestDriver (.ok exampleRoster) = ⟨⟨"Grace", 7⟩, 3, none⟩
    ∧ CalculateCost (.ok exampleDirections) ⟨"Grace", 7⟩ 3 14 = ⟨280, 28, none⟩ := by
  refine ⟨fun leg ls rs driver n hour => ⟨rfl, rfl, ?_⟩, by decide, ?_⟩
  · show leg.distance / 1000 * driver.rate *
        surgeMultiplier (roadCond (aRoadSum leg.steps) leg.distance)
          (scarcityCond n) (offpeakCond hour) =
      leg.distance / 1000 *
        (surgeMultiplier (roadCond (aRoadSum leg.steps) leg.distance)
          (scarcityCond n) (offpeakCond hour) * driver.rate)
    ring
  · have h1 : isARoad "Continue on A1" = true := by decide
    have h2 : isARoad "Turn left onto Baker Street" = false := by decide
    simp only [CalculateCost, exampleDirections, aRoadSum, List.foldl, h1, h2, if_true,
      if_false]
    norm_num [roadCond, scarcityCond, offpeakCond, surgeMultiplier, decide_eq_true_eq,
      CostResult.mk.injEq]

/-- Claim C3: the surge multiplier always lies in {1, 2, 4, 8}, flipping
any one trigger from false to true never decreases it, and the final rate
returned by `CalculateCost` is exactly the multiplier of the three decided
criteria times the driver's base rate. -/
theorem c3_multiplier_range_mono :
    (∀ b1 b2 b3 : Bool, surgeMultiplier b1 b2 b3 = 1 ∨ surgeMultiplier b1 b2 b3 = 2 ∨
        surgeMultiplier b1 b2 b3 = 4 ∨ surgeMultiplier b1 b2 b3 = 8)
    ∧ (∀ b2 b3 : Bool, surgeMultiplier false b2 b3 ≤ surgeMultiplier true b2 b3)
    ∧ (∀ b1 b3 : Bool, surgeMultiplier b1 false b3 ≤ surgeMultiplier b1 true b3)
    ∧ (∀ b1 b2 : Bool, surgeMultiplier b1 b2 false ≤ surgeMultiplier b1 b2 true)
    ∧ (∀ (leg : Leg) (ls : List Leg) (rs : List Route) (driver : Driver) (n hour : ℤ),
        (CalculateCost (.ok ⟨⟨leg :: ls⟩ :: rs⟩) driver n hour).finalRate =
          surgeMultiplier (roadCond (aRoadSum leg.steps) leg.distance)
            (scarcityCond n) (offpeakCond hour) * driver.rate) := by
  refine ⟨?_, ?_, ?_, ?_, fun leg ls rs driver n hour => rfl⟩
  · intro b1 b2 b3; cases b1 <;> cases b2 <;> cases b3 <;> norm_num [surgeMultiplier]
  · intro b2 b3; cases b2 <;> cases b3 <;> norm_num [surgeMultiplier]
  · intro b1 b3; cases b1 <;> cases b3 <;> norm_num [surgeMultiplier]
  · intro b1 b2; cases b1 <;> cases b2 <;> norm_num [surgeMultiplier]

/-- Claim C4: each doubling rule fires at a strict threshold: a major-road
total of exactly half the leg distance does not fire the road rule while a
fraction strictly above one half does; driver count 5 does not fire the
scarcity rule while 4 does; hours 22 and 6 do not fire the off-peak rule
while 23 and 5 do; a fired rule exactly doubles the multiplier. -/
theorem c4_boundaries :
    (∀ t : ℚ, roadCond (t / 2) t = false)
    ∧ (∀ a t : ℚ, 0 < t → 1 / 2 < a / t → roadCond a t = true)
    ∧ scarcityCond 5 = false ∧ scarcityCond 4 = true
    ∧ offpeakCond 22 = false ∧ offpeakCond 23 = true
    ∧ offpeakCond 6 = false ∧ offpeakCond 5 = true
    ∧ (∀ b c : Bool, surgeMultiplier true b c = 2 * surgeMultiplier false b c) := by
  refine ⟨?_, ?_, by decide, by decide, by decide, by decide, by decide, by decide, ?_⟩
  · intro t; simp [roadCond]
  · intro a t ht h
    have hlt : t / 2 < a := by
      have h2 := (lt_div_iff₀ ht).mp h
      linarith
    simp [roadCond, hlt]
  · intro b c; cases b <;> cases c <;> norm_num [surgeMultiplier]

/-- Witness for C4: at total distance 10 a major-road total of 6 (fraction
strictly above one half) fires the road rule. -/
theorem c4_witness : roadCond 6 10 = true :=
  c4_boundaries.2.1 6 10 (by norm_num) (by norm_num)

/-- Counterexample to C5: a leg of total distance 0 whose single step has
distance 5 and a matching instruction.  The claim predicts the road rule
does not fire, so the final rate for a base rate of 1 would be
`surgeMultiplier false (scarcityCond 10) (offpeakCond 12) * 1 = 1`; the
code returns final rate 2 (the road rule fired on `5 > 0/2`). -/
theorem c5_counterexample :
    CalculateCost (.ok ⟨[⟨[⟨0, [⟨5, "A1"⟩]⟩]⟩]⟩) ⟨"Dan", 1⟩ 10 12 = ⟨0, 2, none⟩
    ∧ surgeMultiplier false (scarcityCond 10) (offpeakCond 12) * (1 : ℚ) = 1
    ∧ (2 : ℚ) ≠ 1 := by
  refine ⟨?_, ?_, by norm_num⟩
  · have h1 : isARoad "A1" = true := by decide
    simp only [CalculateCost, aRoadSum, List.foldl, h1, if_true]
    norm_num [roadCond, scarcityCond, offpeakCond, surgeMultiplier, decide_eq_true_eq,
      CostResult.mk.injEq]
  · norm_num [surgeMultiplier, scarcityCond, offpeakCond]

/-- Claim C5 as amended: when the first leg's total distance is 0 the
result carries no error and cost 0, no division by the total distance is
performed (the code compares against half of zero), and the road rule
fires exactly when the summed matched step distance is strictly
positive. -/
theorem c5_zero_distance :
    ∀ (steps : List Step) (ls : List Leg) (rs : List Route) (driver : Driver) (n hour : ℤ),
      (CalculateCost (.ok ⟨⟨(⟨0, steps⟩ : Leg) :: ls⟩ :: rs⟩) driver n hour).err = none
      ∧ (CalculateCost (.ok ⟨⟨(⟨0, steps⟩ : Leg) :: ls⟩ :: rs⟩) driver n hour).cost = 0
      ∧ roadCond (aRoadSum steps) 0 = decide (0 < aRoadSum steps)
      ∧ (CalculateCost (.ok ⟨⟨(⟨0, steps⟩ : Leg) :: ls⟩ :: rs⟩) driver n hour).finalRate =
          surgeMultiplier (decide (0 < aRoadSum steps)) (scarcityCond n) (offpeakCond hour) *
            driver.rate := by
  intro steps ls rs driver n hour
  have hroad : roadCond (aRoadSum steps) 0 = decide (0 < aRoadSum steps) := by
    show decide ((0 : ℚ) / 2 < aRoadSum steps) = decide (0 < aRoadSum steps)
    rw [zero_div]
  refine ⟨rfl, ?_, hroad, ?_⟩
  · show (0 : ℚ) / 1000 * driver.rate *
        surgeMultiplier (roadCond (aRoadSum steps) 0) (scarcityCond n) (offpeakCond hour) = 0
    rw [zero_div, zero_mul, zero_mul]
  · show surgeMultiplier (roadCond (aRoadSum steps) 0) (scarcityCond n) (offpeakCond hour) *
        driver.rate = _
    rw [hroad]

/-- Counterexample to C6: the instruction "B123" contains a letter code
followed by digits (the specification's wording), yet the code's pattern
`A(\d)+` rejects it and its 10 m distance is not added to the major-road
total. -/
theorem c6_counterexample :
    specLetterCode "B123" = true ∧ isARoad "B123" = false
    ∧ aRoadSum [⟨10, "B123"⟩] = 0 := by
  refine ⟨by decide, by decide, ?_⟩
  have h : isARoad "B123" = false := by decide
  simp [aRoadSum, h]

/-- Claim C6 as amended: a step's distance is added to the major-road total
iff its instruction contains, anywhere, the letter `A` immediately followed
by a digit; the accumulated total is the sum over the matching steps; and
the cost uses the leg-level distance field, not a re-sum of the steps. -/
theorem c6_major_road :
    (∀ s : String, isARoad s = true ↔
        ∃ i, s.data[i]? = some 'A' ∧ ∃ c, s.data[i + 1]? = some c ∧ c.isDigit = true)
    ∧ (∀ steps : List Step,
        aRoadSum steps =
          ((steps.filter fun s => isARoad s.html_instructions).map Step.distance).sum)
    ∧ (∀ (d : ℚ) (steps : List Step) (ls : List Leg) (rs : List Route)
        (driver : Driver) (n hour : ℤ),
        (CalculateCost (.ok ⟨⟨(⟨d, steps⟩ : Leg) :: ls⟩ :: rs⟩) driver n hour).cost =
          d / 1000 * driver.rate *
            surgeMultiplier (roadCond (aRoadSum steps) d) (scarcityCond n)
              (offpeakCond hour)) :=
  ⟨fun s => isARoadChars_iff s.data, aRoadSum_eq_filter,
    fun _ _ _ _ _ _ _ => rfl⟩

/-- Witness for C6: the instruction "A1" matches, so it contains an `A`
followed by a digit. -/
theorem c6_witness :
    ∃ i, ("A1" : String).data[i]? = some 'A' ∧
      ∃ c, ("A1" : String).data[i + 1]? = some c ∧ c.isDigit = true :=
  (c6_major_road.1 "A1").mp (by decide)

/-- Claim C7: on decoded directions the no-route error is returned iff
there are no routes or the first route has no legs; otherwise the result
depends only on the first route's first leg. -/
theorem c7_no_route :
    (∀ (dirs : Directions) (driver : Driver) (n hour : ℤ),
        (CalculateCost (.ok dirs) driver n hour).err = some "Error: No Route Found"
          ↔ dirs.routes = [] ∨ ∃ r rs, dirs.routes = r :: rs ∧ r.legs = [])
    ∧ (∀ (l : Leg) (ls : List Leg) (rs : List Route) (driver : Driver) (n hour : ℤ),
        CalculateCost (.ok ⟨⟨l :: ls⟩ :: rs⟩) driver n hour =
          CalculateCost (.ok ⟨[⟨[l]⟩]⟩) driver n hour) := by
  constructor
  · intro dirs driver n hour
    obtain ⟨routes⟩ := dirs
    cases routes with
    | nil => simp [CalculateCost]
    | cons r rs =>
      obtain ⟨legs⟩ := r
      cases legs with
      | nil => simp [CalculateCost]
      | cons l ls => simp [CalculateCost]
  · intro l ls rs driver n hour
    rfl

/-- Witness for C7: an empty routes list yields the no-route error. -/
theorem c7_witness :
    (CalculateCost (.ok ⟨[]⟩) ⟨"Dan", 1⟩ 5 12).err = some "Error: No Route Found" :=
  (c7_no_route.1 ⟨[]⟩ ⟨"Dan", 1⟩ 5 12).mpr (Or.inl rfl)

/-- Claim C8: when the driver lookup fails, `FindBestDriver` carries the
error and the handler answers with the internal error outcome for every
possible cost computation, i.e. without invoking `CalculateCost`. -/
theorem c8_directory_failure :
    ∀ (e : String) (j : Journey) (costFn : Journey → Driver → ℤ → CostResult),
      (FindBestDriver (.error e)).err = some e
      ∧ RiderRequest (some j) (FindBestDriver (.error e)) costFn =
          RiderOutcome.internalError :=
  fun _ _ _ => ⟨rfl, rfl⟩

/-- Claim C9: on a successfully decoded roster the no-drivers outcome is
produced exactly when the selected driver's name is the empty string, for
every cost computation — in particular no quote is produced then. -/
theorem c9_empty_name :
    ∀ (roster : List Driver) (j : Journey) (costFn : Journey → Driver → ℤ → CostResult),
      ((FindBestDriver (.ok roster)).driver.name = "" →
        RiderRequest (some j) (FindBestDriver (.ok roster)) costFn =
          RiderOutcome.noDrivers)
      ∧ ((FindBestDriver (.ok roster)).driver.name ≠ "" →
        RiderRequest (some j) (FindBestDriver (.ok roster)) costFn ≠
          RiderOutcome.noDrivers) := by
  intro roster j costFn
  exact ⟨fun h => riderRequest_noDrivers j _ costFn rfl h,
    fun h => riderRequest_ne_noDrivers j _ costFn h⟩

/-- Witness for C9: a non-empty roster whose cheapest entry has an empty
name still yields the no-drivers message. -/
theorem c9_witness :
    RiderRequest (some ⟨"Soho", "Mayfair"⟩)
        (FindBestDriver (.ok [⟨"", 3⟩, ⟨"Bob", 5⟩]))
        (fun _ _ _ => ⟨0, 0, none⟩) = RiderOutcome.noDrivers :=
  (c9_empty_name [⟨"", 3⟩, ⟨"Bob", 5⟩] ⟨"Soho", "Mayfair"⟩
    (fun _ _ _ => ⟨0, 0, none⟩)).1 (by decide)

/-- Claim C10: whenever `CalculateCost` carries a non-nil error, both of
its numeric results are 0. -/
theorem c10_zero_on_error :
    ∀ (fetch : Except String Directions) (driver : Driver) (n hour : ℤ),
      (CalculateCost fetch driver n hour).err ≠ none →
      (CalculateCost fetch driver n hour).cost = 0 ∧
        (CalculateCost fetch driver n hour).finalRate = 0 := by
  intro fetch driver n hour h
  cases fetch with
  | error e => exact ⟨rfl, rfl⟩
  | ok dirs =>
    obtain ⟨routes⟩ := dirs
    cases routes with
    | nil => exact ⟨rfl, rfl⟩
    | cons r rs =>
      obtain ⟨legs⟩ := r
      cases legs with
      | nil => exact ⟨rfl, rfl⟩
      | cons l ls => exact absurd rfl h

/-- Witness for C10: a failed fetch yields cost 0 and final rate 0. -/
theorem c10_witness :
    (CalculateCost (.error "transport failure") ⟨"Dan", 1⟩ 5 12).cost = 0 ∧
      (CalculateCost (.error "transport failure") ⟨"Dan", 1⟩ 5 12).finalRate = 0 :=
  c10_zero_on_error (.error "transport failure") ⟨"Dan", 1⟩ 5 12
    (Option.some_ne_none "transport failure")

end Esr
